import Mathlib

/-!
Verification of the lua-mosquitto binding (src/lua-mosquitto.c) against its
natural-language specification.  The C file is shallowly embedded: each Lua
C-function is translated into a Lean function over explicit representations of
the Lua stack, the Lua registry, and the per-instance `ctx_t` structure.  The
libmosquitto codec is an external collaborator: its return codes and the
strings produced by `mosquitto_strerror` / `strerror` are passed in as
parameters, mirroring how the binding merely routes them.
-/

/-- A Lua value, restricted to the shapes the binding manipulates.  A userdata
carries whether its metatable is the registered `mosquitto.ctx` metatable
(`luaL_checkudata` succeeds exactly on those); a function value carries an
opaque identifier so that distinct callbacks can be told apart. -/
inductive LuaValue where
  | nil : LuaValue
  | bool (b : Bool) : LuaValue
  | num (n : Int) : LuaValue
  | str (s : String) : LuaValue
  | userdata (ctxMeta : Bool) : LuaValue
  | func (fid : Nat) : LuaValue
deriving DecidableEq, Repr

/-! ## libmosquitto error codes (mosquitto.h) used by `mosq__pstatus` -/

def MOSQ_ERR_SUCCESS : Int := 0
def MOSQ_ERR_NOMEM : Int := 1
def MOSQ_ERR_PROTOCOL : Int := 2
def MOSQ_ERR_INVAL : Int := 3
def MOSQ_ERR_NO_CONN : Int := 4
def MOSQ_ERR_CONN_LOST : Int := 7
def MOSQ_ERR_PAYLOAD_SIZE : Int := 9
def MOSQ_ERR_NOT_SUPPORTED : Int := 10
def MOSQ_ERR_ERRNO : Int := 14

/-- Outcome of a Lua C-function: it either raises a hard Lua error
(`luaL_error` / `luaL_argerror`, which never return), or returns a list of Lua
values to the caller. -/
inductive PResult where
  | raised (msg : String) : PResult
  | returns (vals : List LuaValue) : PResult
deriving DecidableEq, Repr

/-- Embedding of `mosq__pstatus` (src/lua-mosquitto.c:88-120), the shared
status handler.  `strerror` stands for `mosquitto_strerror`, `errnoStr` for
the OS `strerror`, and `errno` for the C global `errno`.  The C `switch`
raises on INVAL/NOMEM/PROTOCOL/NOT_SUPPORTED, returns `nil, code, msg` on
NO_CONN/CONN_LOST/PAYLOAD_SIZE/ERRNO, returns `true` on SUCCESS, and falls
through (returning zero values) on any other code. -/
def mosq__pstatus (strerror errnoStr : Int → String) (errno mosq_errno : Int) : PResult :=
  if mosq_errno = MOSQ_ERR_SUCCESS then
    .returns [.bool true]
  else if mosq_errno = MOSQ_ERR_INVAL ∨ mosq_errno = MOSQ_ERR_NOMEM ∨
      mosq_errno = MOSQ_ERR_PROTOCOL ∨ mosq_errno = MOSQ_ERR_NOT_SUPPORTED then
    .raised (strerror mosq_errno)
  else if mosq_errno = MOSQ_ERR_NO_CONN ∨ mosq_errno = MOSQ_ERR_CONN_LOST ∨
      mosq_errno = MOSQ_ERR_PAYLOAD_SIZE then
    .returns [.nil, .num mosq_errno, .str (strerror mosq_errno)]
  else if mosq_errno = MOSQ_ERR_ERRNO then
    .returns [.nil, .num errno, .str (errnoStr errno)]
  else
    .returns []

/-! ## Operations that route their codec result through `mosq__pstatus`.
Each takes the return code `rc` produced by the corresponding libmosquitto
call; `ctx_publish`, `ctx_subscribe` and `ctx_unsubscribe` additionally take
the message id the codec wrote into `&mid`. -/

/-- `ctx_connect` (src/lua-mosquitto.c:563-572): returns `mosq__pstatus(rc)`. -/
def ctx_connect (strerror errnoStr : Int → String) (errno rc : Int) : PResult :=
  mosq__pstatus strerror errnoStr errno rc

/-- `ctx_disconnect` (src/lua-mosquitto.c:660-666): returns `mosq__pstatus(rc)`. -/
def ctx_disconnect (strerror errnoStr : Int → String) (errno rc : Int) : PResult :=
  mosq__pstatus strerror errnoStr errno rc

/-- `ctx_will_set` (src/lua-mosquitto.c:348-364): returns `mosq__pstatus(rc)`. -/
def ctx_will_set (strerror errnoStr : Int → String) (errno rc : Int) : PResult :=
  mosq__pstatus strerror errnoStr errno rc

/-- Return-value aspect of `mosq_loop` (src/lua-mosquitto.c:764-778), shared
by `loop` and `loop_forever`: returns `mosq__pstatus(rc)`. -/
def mosq_loop_status (strerror errnoStr : Int → String) (errno rc : Int) : PResult :=
  mosq__pstatus strerror errnoStr errno rc

/-- `ctx_publish` (src/lua-mosquitto.c:683-706): a non-success code is routed
through `mosq__pstatus`; on success the allocated message id is returned. -/
def ctx_publish (strerror errnoStr : Int → String) (errno rc mid : Int) : PResult :=
  if rc ≠ MOSQ_ERR_SUCCESS then mosq__pstatus strerror errnoStr errno rc
  else .returns [.num mid]

/-- `ctx_subscribe` (src/lua-mosquitto.c:720-735): same shape as `ctx_publish`. -/
def ctx_subscribe (strerror errnoStr : Int → String) (errno rc mid : Int) : PResult :=
  if rc ≠ MOSQ_ERR_SUCCESS then mosq__pstatus strerror errnoStr errno rc
  else .returns [.num mid]

/-- `ctx_unsubscribe` (src/lua-mosquitto.c:748-762): same shape as `ctx_publish`. -/
def ctx_unsubscribe (strerror errnoStr : Int → String) (errno rc mid : Int) : PResult :=
  if rc ≠ MOSQ_ERR_SUCCESS then mosq__pstatus strerror errnoStr errno rc
  else .returns [.num mid]

/-! ## Connect / disconnect hook argument computation -/

/-- The `(success, reason)` pair computed by `ctx_on_connect_safe`
(src/lua-mosquitto.c:959-1005) from the broker connect return code: the C
switch over `enum connect_return_codes`, with defaults `success=false`,
`str="reserved for future use"`. -/
def connack (rc : Int) : Bool × String :=
  if rc = 0 then (true, "connection accepted")
  else if rc = 1 then (false, "connection refused - incorrect protocol version")
  else if rc = 2 then (false, "connection refused - invalid client identifier")
  else if rc = 3 then (false, "connection refused - server unavailable")
  else if rc = 4 then (false, "connection refused - bad username or password")
  else if rc = 5 then (false, "connection refused - not authorised")
  else if rc = 6 then (false, "connection refused - TLS error")
  else (false, "reserved for future use")

/-- The `(success, reason)` pair computed by `ctx_on_disconnect_safe`
(src/lua-mosquitto.c:1024-1044): defaults `success=true`,
`str="client-initiated disconnect"`, overridden when `rc` is nonzero. -/
def disconnack (rc : Int) : Bool × String :=
  if rc = 0 then (true, "client-initiated disconnect")
  else (false, "unexpected disconnect")

/-! ## Event dispatchers (the C callbacks handed to libmosquitto).
A hook is application-supplied logic; invoking it either succeeds or raises a
Lua error, modelled as `Except String Unit`.  `lua_call` propagates such an
error to the enclosing protected call; `lua_pcall` returns a nonzero flag
instead of propagating. -/

/-- `lua_pcall` boundary: runs the protected body, reporting `true` when the
body raised an error (which is then confined to this boundary). -/
def lua_pcall (body : Except String Unit) : Bool :=
  match body with
  | .ok _ => false
  | .error _ => true

/-- Outcome of a C-level mosquitto callback: either control returns normally
to the codec loop, or an error unwinds into the engine (never produced by the
code, since every dispatcher guards the hook with `lua_pcall`). -/
inductive CbOutcome where
  | returnsNormally : CbOutcome
  | unwindsIntoEngine (msg : String) : CbOutcome
deriving DecidableEq, Repr

/-- `ctx_on_connect_safe` (src/lua-mosquitto.c:959-1005): computes
`(success, reason)` from `rc` and calls the hook with
`(success, rc, reason)` via `lua_call` (errors propagate). -/
def ctx_on_connect_safe (hook : Bool → Int → String → Except String Unit) (rc : Int) :
    Except String Unit :=
  hook (connack rc).1 rc (connack rc).2

/-- `ctx_on_connect` (src/lua-mosquitto.c:1007-1021): runs the safe body under
`lua_pcall`; on failure it pops the error message and returns. -/
def ctx_on_connect (hook : Bool → Int → String → Except String Unit) (rc : Int) : CbOutcome :=
  if lua_pcall (ctx_on_connect_safe hook rc) then
    CbOutcome.returnsNormally
  else
    CbOutcome.returnsNormally

/-- `ctx_on_disconnect_safe` (src/lua-mosquitto.c:1024-1044): calls the hook
with `(success, rc, reason)` via `lua_call`. -/
def ctx_on_disconnect_safe (hook : Bool → Int → String → Except String Unit) (rc : Int) :
    Except String Unit :=
  hook (disconnack rc).1 rc (disconnack rc).2

/-- `ctx_on_disconnect` (src/lua-mosquitto.c:1046-1060): `lua_pcall` around the
safe body; error message popped and discarded. -/
def ctx_on_disconnect (hook : Bool → Int → String → Except String Unit) (rc : Int) : CbOutcome :=
  if lua_pcall (ctx_on_disconnect_safe hook rc) then
    CbOutcome.returnsNormally
  else
    CbOutcome.returnsNormally

/-- `ctx_on_publish` (src/lua-mosquitto.c:1062-1075): pushes the hook and the
mid and invokes it directly under `lua_pcall`. -/
def ctx_on_publish (hook : Int → Except String Unit) (mid : Int) : CbOutcome :=
  if lua_pcall (hook mid) then
    CbOutcome.returnsNormally
  else
    CbOutcome.returnsNormally

/-- The inbound message fields delivered to the message hook
(`struct mosquitto_message`). -/
structure MosqMessage where
  mid : Int
  topic : String
  payload : String
  qos : Int
  retain : Bool

/-- `ctx_on_message_safe` (src/lua-mosquitto.c:1077-1093): calls the hook with
`(mid, topic, payload, qos, retain)` via `lua_call`. -/
def ctx_on_message_safe (hook : Int → String → String → Int → Bool → Except String Unit)
    (msg : MosqMessage) : Except String Unit :=
  hook msg.mid msg.topic msg.payload msg.qos msg.retain

/-- `ctx_on_message` (src/lua-mosquitto.c:1095-1109): `lua_pcall` around the
safe body; error message popped and discarded. -/
def ctx_on_message (hook : Int → String → String → Int → Bool → Except String Unit)
    (msg : MosqMessage) : CbOutcome :=
  if lua_pcall (ctx_on_message_safe hook msg) then
    CbOutcome.returnsNormally
  else
    CbOutcome.returnsNormally

/-- `ctx_on_subscribe` (src/lua-mosquitto.c:1111-1137): if `lua_checkstack`
cannot grow the stack for `qos_count + 2` slots the dispatcher returns early;
otherwise the hook is invoked with the mid and the granted-QoS values under
`lua_pcall`. -/
def ctx_on_subscribe (stackOk : Bool) (hook : Int → List Int → Except String Unit)
    (mid : Int) (granted_qos : List Int) : CbOutcome :=
  if !stackOk then
    CbOutcome.returnsNormally
  else if lua_pcall (hook mid granted_qos) then
    CbOutcome.returnsNormally
  else
    CbOutcome.returnsNormally

/-- `ctx_on_unsubscribe` (src/lua-mosquitto.c:1139-1152): hook invoked with the
mid directly under `lua_pcall`. -/
def ctx_on_unsubscribe (hook : Int → Except String Unit) (mid : Int) : CbOutcome :=
  if lua_pcall (hook mid) then
    CbOutcome.returnsNormally
  else
    CbOutcome.returnsNormally

/-- `ctx_on_log_safe` (src/lua-mosquitto.c:1154-1167): calls the hook with
`(level, message)` via `lua_call`. -/
def ctx_on_log_safe (hook : Int → String → Except String Unit) (level : Int) (msg : String) :
    Except String Unit :=
  hook level msg

/-- `ctx_on_log` (src/lua-mosquitto.c:1169-1185): `lua_pcall` around the safe
body; error message popped and discarded. -/
def ctx_on_log (hook : Int → String → Except String Unit) (level : Int) (msg : String) :
    CbOutcome :=
  if lua_pcall (ctx_on_log_safe hook level msg) then
    CbOutcome.returnsNormally
  else
    CbOutcome.returnsNormally

/-! ## Callback kind codes (src/lua-mosquitto.c:50-58) -/

def CONNECT : Int := 0x10
def PUBLISH : Int := 0x30
def SUBSCRIBE : Int := 0x80
def UNSUBSCRIBE : Int := 0xA0
def DISCONNECT : Int := 0xE0
def MESSAGE : Int := 0x01
def LOG : Int := 0x02

/-! ## The Lua registry and the per-instance callback reference fields -/

/-- The Lua registry as used by the binding: a table of slots each holding a
function (identified by its `fid`) or nothing.  `luaL_ref` allocates a fresh
slot (modelled append-only; slot reuse after `luaL_unref` does not change any
property proved here), `luaL_unref` empties a slot. -/
abbrev Registry := List (Option Nat)

/-- `LUA_REFNIL`: the reference value the fields are initialised with. -/
def LUA_REFNIL : Int := -1

/-- `luaL_ref`: stores the function in a fresh registry slot and returns the
updated registry together with the new reference. -/
def luaL_ref (reg : Registry) (fid : Nat) : Registry × Int :=
  (reg ++ [some fid], Int.ofNat reg.length)

/-- `luaL_unref`: releases the slot named by `ref`; negative or out-of-range
references (`LUA_REFNIL` in particular) are ignored. -/
def luaL_unref (reg : Registry) (ref : Int) : Registry :=
  if 0 ≤ ref ∧ ref.toNat < reg.length then reg.set ref.toNat none else reg

/-- `lua_rawgeti(L, LUA_REGISTRYINDEX, ref)`: the value currently held by a
registry reference (`none` models pushing nil). -/
def registryGet (reg : Registry) (ref : Int) : Option Nat :=
  if ref < 0 then none else reg.getD ref.toNat none

/-- The callback reference fields of `ctx_t` (src/lua-mosquitto.c:73-83). -/
structure CbCtx where
  on_connect : Int
  on_disconnect : Int
  on_publish : Int
  on_message : Int
  on_subscribe : Int
  on_unsubscribe : Int
  on_log : Int
deriving DecidableEq, Repr

/-- `ctx__on_init` (src/lua-mosquitto.c:207-216): every field starts at
`LUA_REFNIL`. -/
def ctx__on_init : CbCtx :=
  ⟨LUA_REFNIL, LUA_REFNIL, LUA_REFNIL, LUA_REFNIL, LUA_REFNIL, LUA_REFNIL, LUA_REFNIL⟩

/-- `luaL_unref(L, LUA_REGISTRYINDEX, ref)` with the `lua_State` pointer it is
handed made explicit (`none` models a NULL pointer).  Lua ignores a negative
reference (`LUA_REFNIL` / `LUA_NOREF`) without touching `L`; for a
non-negative reference it operates on `L`, which is undefined behavior when
`L` is NULL, and otherwise empties the slot. -/
def luaL_unref_st (L : Option Nat) (reg : Registry) (ref : Int) : Except Unit Registry :=
  if 0 ≤ ref then
    match L with
    | none => .error ()
    | some _ => .ok (luaL_unref reg ref)
  else .ok reg

/-- `ctx__on_clear` (src/lua-mosquitto.c:218-227): `luaL_unref` applied to the
seven currently stored references, in source order — each call goes through
`ctx->L`, the back-reference that is NULL except while a loop operation is
executing (see `LoopBinding`).  With any hook reference bound (`ref >= 0`)
and `ctx->L` NULL, the first such unref dereferences the NULL state. -/
def ctx__on_clear (L : Option Nat) (reg : Registry) (c : CbCtx) : Except Unit Registry := do
  let r1 ← luaL_unref_st L reg c.on_connect
  let r2 ← luaL_unref_st L r1 c.on_disconnect
  let r3 ← luaL_unref_st L r2 c.on_publish
  let r4 ← luaL_unref_st L r3 c.on_message
  let r5 ← luaL_unref_st L r4 c.on_subscribe
  let r6 ← luaL_unref_st L r5 c.on_unsubscribe
  luaL_unref_st L r6 c.on_log

/-- The registry reference a dispatcher for the given callback type reads from
the context (each C dispatcher reads its own field, e.g. `ctx->on_connect` in
`ctx_on_connect`). -/
def dispatchRef (c : CbCtx) (callback_type : Int) : Int :=
  if callback_type = CONNECT then c.on_connect
  else if callback_type = DISCONNECT then c.on_disconnect
  else if callback_type = PUBLISH then c.on_publish
  else if callback_type = MESSAGE then c.on_message
  else if callback_type = SUBSCRIBE then c.on_subscribe
  else if callback_type = UNSUBSCRIBE then c.on_unsubscribe
  else if callback_type = LOG then c.on_log
  else LUA_REFNIL

/-- A Lua error raised by `ctx_callback_set`; `argerror n msg` stands for
`luaL_argerror(L, n, msg)`. -/
inductive CbSetError where
  | argerror (argn : Nat) (msg : String) : CbSetError
  | numberExpected (argn : Nat) : CbSetError
deriving DecidableEq, Repr

/-- Core of `ctx_callback_set` (src/lua-mosquitto.c:1189-1252) after the
callback type has been resolved and the function argument checked: the
function is stored in the registry via `luaL_ref` and the reference written
into the field selected by the `switch`; an unrecognized type releases the
fresh reference again and raises `luaL_argerror(L, 2, "not a proper callback
type")`.  The old field value is overwritten without being unreferenced. -/
def ctx_callback_set (c : CbCtx) (reg : Registry) (callback_type : Int) (fid : Nat) :
    Except CbSetError (CbCtx × Registry) :=
  let r := luaL_ref reg fid
  if callback_type = CONNECT then .ok ({ c with on_connect := r.2 }, r.1)
  else if callback_type = DISCONNECT then .ok ({ c with on_disconnect := r.2 }, r.1)
  else if callback_type = PUBLISH then .ok ({ c with on_publish := r.2 }, r.1)
  else if callback_type = MESSAGE then .ok ({ c with on_message := r.2 }, r.1)
  else if callback_type = SUBSCRIBE then .ok ({ c with on_subscribe := r.2 }, r.1)
  else if callback_type = UNSUBSCRIBE then .ok ({ c with on_unsubscribe := r.2 }, r.1)
  else if callback_type = LOG then .ok ({ c with on_log := r.2 }, r.1)
  else .error (.argerror 2 "not a proper callback type")

/-- Two successive `callback_set` calls for the same callback type on the same
instance, binding first `f1` and then `f2`. -/
def setTwice (callback_type : Int) (c : CbCtx) (reg : Registry) (f1 f2 : Nat) :
    Except CbSetError (CbCtx × Registry) :=
  match ctx_callback_set c reg callback_type f1 with
  | .ok p => ctx_callback_set p.1 p.2 callback_type f2
  | .error e => .error e

/-- The hook that the next dispatch for `callback_type` will invoke after two
`callback_set` calls binding first `f1` and then `f2`: each C dispatcher does
`lua_rawgeti` on the reference field of its own kind, so the invoked hook is
the registry content at `dispatchRef`. -/
def invokedAfterTwo (callback_type : Int) (c : CbCtx) (reg : Registry) (f1 f2 : Nat) :
    Option Nat :=
  match setTwice callback_type c reg f1 f2 with
  | .ok p => registryGet p.2 (dispatchRef p.1 callback_type)
  | .error _ => none

/-! ## Resolution of the callback-type argument (src/lua-mosquitto.c:1259-1291) -/

/-- The `D` constant table (src/lua-mosquitto.c:1259-1277): the seven `ON_*`
callback names followed by the `LOG_*` level constants (values from
mosquitto.h: NONE 0, INFO 1, NOTICE 2, WARNING 4, ERR 8, DEBUG 16,
ALL 0xFFFF).  The terminating null entry is the end of the Lean list. -/
def D : List (List Char × Int) :=
  [("ON_CONNECT".toList, CONNECT),
   ("ON_DISCONNECT".toList, DISCONNECT),
   ("ON_PUBLISH".toList, PUBLISH),
   ("ON_MESSAGE".toList, MESSAGE),
   ("ON_SUBSCRIBE".toList, SUBSCRIBE),
   ("ON_UNSUBSCRIBE".toList, UNSUBSCRIBE),
   ("ON_LOG".toList, LOG),
   ("LOG_NONE".toList, 0),
   ("LOG_INFO".toList, 1),
   ("LOG_NOTICE".toList, 2),
   ("LOG_WARNING".toList, 4),
   ("LOG_ERROR".toList, 8),
   ("LOG_DEBUG".toList, 16),
   ("LOG_ALL".toList, 0xFFFF)]

/-- `strstr(hay, needle)` as the index of the first occurrence of `needle` in
`hay` (`none` for no occurrence); `callback_type_from_string` compares the
result against the start of the string. -/
def strstrIdx : List Char → List Char → Option Nat
  | [], needle => if needle = [] then some 0 else none
  | c :: t, needle =>
      if needle.isPrefixOf (c :: t) then some 0 else (strstrIdx t needle).map (· + 1)

/-- The `while (def->name != NULL)` scan of `callback_type_from_string`:
first `strcmp`-equal entry wins, exhaustion yields -1. -/
def scanD : List (List Char × Int) → List Char → Int
  | [], _ => -1
  | e :: rest, s => if e.1 = s then e.2 else scanD rest s

/-- `callback_type_from_string` (src/lua-mosquitto.c:1279-1291): strings whose
first `"ON_"` occurrence is not at the start are filtered out (-1), the rest
are looked up in `D`. -/
def callback_type_from_string (typestr : List Char) : Int :=
  if strstrIdx typestr "ON_".toList ≠ some 0 then -1
  else scanD D typestr

/-- `lua_isstring`: true for strings and for numbers (numbers are always
convertible to strings). -/
def lua_isstring : LuaValue → Bool
  | .str _ => true
  | .num _ => true
  | _ => false

/-- `lua_tostring` on an argument for which `lua_isstring` holds: a number is
converted to its decimal representation. -/
def lua_tostring : LuaValue → Option String
  | .str s => some s
  | .num n => some (toString n)
  | _ => none

/-- Argument handling of `ctx_callback_set` (src/lua-mosquitto.c:1189-1252):
a string-convertible kind argument (which includes every number!) is resolved
via `callback_type_from_string`, anything else goes through
`luaL_checkinteger`; then the third argument must be a function, and the core
performs the `switch`. -/
def ctx_callback_set_entry (c : CbCtx) (reg : Registry) (kindArg fnArg : LuaValue) :
    Except CbSetError (CbCtx × Registry) := do
  let callback_type ←
    if lua_isstring kindArg then
      match lua_tostring kindArg with
      | some s => pure (callback_type_from_string s.toList)
      | none => pure (-1)
    else
      match kindArg with
      | .num n => pure n
      | _ => .error (.numberExpected 2)
  match fnArg with
  | .func fid => ctx_callback_set c reg callback_type fid
  | _ => .error (.argerror 3 "expecting a callback function")

/-! ## The `ctx->L` back-reference across the loop operations.
`LoopBinding` isolates the `ctx->L` assignments of the loop functions: each
operation is rendered as the pair of the context state in effect while the
codec call (and hence any hook dispatch) runs, and the context state at the
moment the Lua function returns control to its caller.  `some caller`
models `ctx->L = L`; `none` models `ctx->L = NULL`. -/

namespace LoopBinding

/-- The `lua_State *L` field of `ctx_t`, tracked in isolation. -/
structure LCtx where
  L : Option Nat
deriving DecidableEq, Repr

/-- `mosq_loop` (src/lua-mosquitto.c:764-778), shared by `loop` and
`loop_forever`: `ctx->L = L` before the codec loop call, `ctx->L = NULL`
after it, then return. -/
def mosq_loop (caller : Nat) (_c : LCtx) : LCtx × LCtx :=
  (⟨some caller⟩, ⟨none⟩)

/-- `ctx_loop` (src/lua-mosquitto.c:792-795): `mosq_loop` with `forever=false`. -/
def ctx_loop (caller : Nat) (c : LCtx) : LCtx × LCtx :=
  mosq_loop caller c

/-- `ctx_loop_forever` (src/lua-mosquitto.c:809-812): `mosq_loop` with
`forever=true`. -/
def ctx_loop_forever (caller : Nat) (c : LCtx) : LCtx × LCtx :=
  mosq_loop caller c

/-- `ctx_loop_read` (src/lua-mosquitto.c:889-899): binds `ctx->L`, calls
`mosquitto_loop_read`, clears `ctx->L`, returns. -/
def ctx_loop_read (caller : Nat) (_c : LCtx) : LCtx × LCtx :=
  (⟨some caller⟩, ⟨none⟩)

/-- `ctx_loop_write` (src/lua-mosquitto.c:912-922): same binding discipline as
`ctx_loop_read`. -/
def ctx_loop_write (caller : Nat) (_c : LCtx) : LCtx × LCtx :=
  (⟨some caller⟩, ⟨none⟩)

/-- `ctx_loop_misc` (src/lua-mosquitto.c:934-943): same binding discipline as
`ctx_loop_read`. -/
def ctx_loop_misc (caller : Nat) (_c : LCtx) : LCtx × LCtx :=
  (⟨some caller⟩, ⟨none⟩)

/-- `ctx_loop_start` (src/lua-mosquitto.c:824-832): `ctx->L = L`, then
`mosquitto_loop_start` and return — the function returns with `ctx->L` still
set (it is the background thread that will dispatch through it). -/
def ctx_loop_start (caller : Nat) (_c : LCtx) : LCtx × LCtx :=
  (⟨some caller⟩, ⟨some caller⟩)

/-- `ctx_loop_stop` (src/lua-mosquitto.c:844-852): stops the thread, then
`ctx->L = NULL` before returning. -/
def ctx_loop_stop (c : LCtx) : LCtx × LCtx :=
  (c, ⟨none⟩)

end LoopBinding

/-! ## Instance lifecycle: `ctx_destroy` / `ctx_check` (claim C9) -/

/-- The state of one binding instance that `ctx_destroy` manipulates:
whether the userdata still carries the `mosquitto.ctx` metatable (`valid`;
`ctx_destroy` replaces the metatable with a fresh empty table), how many
times `mosquitto_destroy` has been performed on the codec handle
(`destroyCount`; more than once would be a double free), the callback
reference fields, and the `ctx->L` back-reference (`none` = NULL, its value
at every moment other than during loop execution). -/
structure InstState where
  valid : Bool
  destroyCount : Nat
  cb : CbCtx
  L : Option Nat
deriving DecidableEq, Repr

/-- `ctx_check` (src/lua-mosquitto.c:265-268): `luaL_checkudata` against
`MOSQ_META_CTX` — raises unless the metatable is still the registered one. -/
def ctx_check (s : InstState) : Except String Unit :=
  if s.valid then .ok () else .error "bad argument (mosquitto.ctx expected)"

/-- Result of a `ctx_destroy` call.  `undefinedBehavior n` means the process
crashed dereferencing the NULL `lua_State` inside `ctx__on_clear`, after the
codec handle had been released for the `n`-th time; `completed ret st reg`
is a call that ran to a Lua-visible outcome, leaving this instance state and
registry. -/
inductive DOut where
  | undefinedBehavior (destroyCount : Nat) : DOut
  | completed (ret : PResult) (st : InstState) (reg : Registry) : DOut
deriving DecidableEq, Repr

/-- `ctx_destroy` (src/lua-mosquitto.c:287-300): after `ctx_check`, calls
`mosquitto_destroy` on the codec handle, then `ctx__on_clear` — whose seven
`luaL_unref` calls go through `ctx->L`, so with a hook reference bound and
`ctx->L` NULL the process crashes here, after the codec release — then
replaces the metatable by a fresh empty table (invalidating every further
`ctx_check`) and returns `mosq__pstatus(MOSQ_ERR_SUCCESS)`.  If `ctx_check`
raises, nothing else happens. -/
def ctx_destroy (strerror errnoStr : Int → String) (errno : Int)
    (s : InstState) (reg : Registry) : DOut :=
  match ctx_check s with
  | .error e => .completed (.raised e) s reg
  | .ok _ =>
      match ctx__on_clear s.L reg s.cb with
      | .error _ => .undefinedBehavior (s.destroyCount + 1)
      | .ok reg1 =>
          .completed (mosq__pstatus strerror errnoStr errno MOSQ_ERR_SUCCESS)
            { valid := false, destroyCount := s.destroyCount + 1, cb := s.cb, L := s.L }
            reg1

/-! ## Stack-convention embedding of `new` and `reinitialise` (claim C2) -/

/-- The Lua argument stack of a C-function call; index 1 is the first
argument (for a method call, the instance itself). -/
abbrev LuaStack := List LuaValue

/-- The value at stack position `i` (1-based); missing positions read as
none/nil. -/
def stackAt (st : LuaStack) (i : Nat) : LuaValue :=
  st.getD (i - 1) .nil

/-- `lua_isnoneornil` at a stack position. -/
def lua_isnoneornil (st : LuaStack) (i : Nat) : Bool :=
  match stackAt st i with
  | .nil => true
  | _ => false

/-- `lua_isboolean` at a stack position. -/
def lua_isboolean (st : LuaStack) (i : Nat) : Bool :=
  match stackAt st i with
  | .bool _ => true
  | _ => false

/-- `lua_toboolean` at a stack position: nil and false are false, everything
else true. -/
def lua_toboolean (st : LuaStack) (i : Nat) : Bool :=
  match stackAt st i with
  | .nil => false
  | .bool b => b
  | _ => true

/-- `luaL_optstring(L, i, NULL)`: nil/none yields the default; otherwise
`luaL_checklstring`, which accepts strings and numbers and raises the
"string expected" type error on anything else. -/
def luaL_optstring (st : LuaStack) (i : Nat) : Except Nat (Option String) :=
  if lua_isnoneornil st i then .ok none
  else
    match lua_tostring (stackAt st i) with
    | some s => .ok (some s)
    | none => .error i

/-- Outcome of `new` / `reinitialise` up to the point where the codec is first
touched.  `raisedTypeString i` is the `luaL_checklstring` type error at
argument `i`; `raisedArgIdNilCleanSession i` is the
`luaL_argerror(L, i, "if id is nil then clean session must be true")` check;
`proceeds id clean_session` means the validation passed and
`mosquitto_new` / `mosquitto_reinitialise` is reached with these arguments. -/
inductive ArgOutcome where
  | raisedCheckUdata : ArgOutcome
  | raisedTypeString (argn : Nat) : ArgOutcome
  | raisedArgIdNilCleanSession (argn : Nat) : ArgOutcome
  | proceeds (id : Option String) (clean_session : Bool) : ArgOutcome
deriving DecidableEq, Repr

/-- `mosq_new` (src/lua-mosquitto.c:238-263): id from stack position 1,
clean_session from position 2 (default true unless an actual boolean), and
the id/clean-session validation at argument 2 before `mosquitto_new` runs. -/
def mosq_new (st : LuaStack) : ArgOutcome :=
  match luaL_optstring st 1 with
  | .error i => .raisedTypeString i
  | .ok id =>
      let clean_session := if lua_isboolean st 2 then lua_toboolean st 2 else true
      if id = none ∧ clean_session = false then .raisedArgIdNilCleanSession 2
      else .proceeds id clean_session

/-- `ctx_reinitialise` (src/lua-mosquitto.c:315-332): `ctx_check` on stack
position 1, then — exactly as written in the source — the id is read with
`luaL_optstring(L, 1, NULL)` from position 1 (the instance userdata itself)
and clean_session with `lua_isboolean(L, 2)`/`lua_toboolean(L, 2)` from
position 2 (where a method call holds the id argument); the nil-id check
raises at argument 3.  Only then would `mosquitto_reinitialise` run. -/
def ctx_reinitialise (st : LuaStack) : ArgOutcome :=
  match stackAt st 1 with
  | .userdata true =>
      (match luaL_optstring st 1 with
       | .error i => .raisedTypeString i
       | .ok id =>
           let clean_session := if lua_isboolean st 2 then lua_toboolean st 2 else true
           if id = none ∧ clean_session = false then .raisedArgIdNilCleanSession 3
           else .proceeds id clean_session)
  | _ => .raisedCheckUdata

/-! ## `ctx_version_set` (claim C8) -/

/-- MQTT_PROTOCOL_V31 / MQTT_PROTOCOL_V311 (mosquitto.h). -/
def MQTT_PROTOCOL_V31 : Int := 3

def MQTT_PROTOCOL_V311 : Int := 4

/-- What `ctx_version_set` does up to the `mosquitto_opts_set` call. -/
inductive VersionOutcome where
  | undefinedBehavior : VersionOutcome
  | proceeds (protocol_version : Int) : VersionOutcome
deriving DecidableEq, Repr

/-- `ctx_version_set` (src/lua-mosquitto.c:441-455): `mqtt_version` is
`luaL_optstring(L, 2, NULL)`; with the argument absent or nil it is the NULL
pointer and the very first `strcmp(mqtt_version, "mqttv31")` dereferences
NULL — undefined behavior.  Otherwise `protocol_version` starts at V31, is
set to V31 on `"mqttv31"`, to V311 on `"mqttv311"`, and is left at V31 for
every other token, after which `mosquitto_opts_set` is reached. -/
def ctx_version_set (mqtt_version : Option String) : VersionOutcome :=
  match mqtt_version with
  | none => .undefinedBehavior
  | some s =>
      .proceeds
        (if s = "mqttv31" then MQTT_PROTOCOL_V31
         else if s = "mqttv311" then MQTT_PROTOCOL_V311
         else MQTT_PROTOCOL_V31)

/-! ## Helper lemmas about the registry model -/

theorem getD_append_len (l m : List (Option Nat)) (k : Nat) :
    (l ++ m).getD (l.length + k) none = m.getD k none := by
  induction l with
  | nil => simp
  | cons a t ih =>
      have hidx : t.length + 1 + k = (t.length + k) + 1 := by omega
      simp only [List.cons_append, List.length_cons, hidx, List.getD_cons_succ]
      exact ih

theorem registryGet_append (l m : List (Option Nat)) (k : Nat) :
    registryGet (l ++ m) (Int.ofNat (l.length + k)) = m.getD k none := by
  unfold registryGet
  have hnn : ¬ Int.ofNat (l.length + k) < 0 := by
    simp only [Int.ofNat_eq_coe]; omega
  rw [if_neg hnn]
  have ht : (Int.ofNat (l.length + k)).toNat = l.length + k := by
    simp only [Int.ofNat_eq_coe]; omega
  rw [ht]
  exact getD_append_len l m k

/-! ## Claim theorems -/

/-- Claim C1, counterexample: `publish` routes error codes through
`mosq__pstatus`, but its success is not returned as the boolean true — the
allocated message id is returned instead (src/lua-mosquitto.c:700-705), so
the claim's final clause fails for the publish/subscribe/unsubscribe family
as stated. -/
theorem C1_publish_success_returns_mid_not_true :
    ctx_publish (fun _ => "") (fun _ => "") 0 MOSQ_ERR_SUCCESS 42 =
      .returns [.num 42]
  ∧ ctx_publish (fun _ => "") (fun _ => "") 0 MOSQ_ERR_SUCCESS 42 ≠
      .returns [.bool true] := by
  refine ⟨rfl, ?_⟩
  decide

/-- Claim C1 (amended): for every operation routed through `mosq__pstatus`,
the codes INVAL/NOMEM/PROTOCOL/NOT_SUPPORTED are raised as hard errors and
never returned as values, the operational codes NO_CONN/CONN_LOST/
PAYLOAD_SIZE/ERRNO come back as the `nil, code, description` triple, and a
success code reaching the handler comes back as the boolean true; operations
whose success short-circuits before the handler — publish, subscribe,
unsubscribe — return the allocated message id on success instead. -/
theorem C1_status_handler_taxonomy (strerror errnoStr : Int → String) (errno mid : Int) :
    mosq__pstatus strerror errnoStr errno MOSQ_ERR_INVAL = .raised (strerror MOSQ_ERR_INVAL)
  ∧ mosq__pstatus strerror errnoStr errno MOSQ_ERR_NOMEM = .raised (strerror MOSQ_ERR_NOMEM)
  ∧ mosq__pstatus strerror errnoStr errno MOSQ_ERR_PROTOCOL =
      .raised (strerror MOSQ_ERR_PROTOCOL)
  ∧ mosq__pstatus strerror errnoStr errno MOSQ_ERR_NOT_SUPPORTED =
      .raised (strerror MOSQ_ERR_NOT_SUPPORTED)
  ∧ mosq__pstatus strerror errnoStr errno MOSQ_ERR_NO_CONN =
      .returns [.nil, .num MOSQ_ERR_NO_CONN, .str (strerror MOSQ_ERR_NO_CONN)]
  ∧ mosq__pstatus strerror errnoStr errno MOSQ_ERR_CONN_LOST =
      .returns [.nil, .num MOSQ_ERR_CONN_LOST, .str (strerror MOSQ_ERR_CONN_LOST)]
  ∧ mosq__pstatus strerror errnoStr errno MOSQ_ERR_PAYLOAD_SIZE =
      .returns [.nil, .num MOSQ_ERR_PAYLOAD_SIZE, .str (strerror MOSQ_ERR_PAYLOAD_SIZE)]
  ∧ mosq__pstatus strerror errnoStr errno MOSQ_ERR_ERRNO =
      .returns [.nil, .num errno, .str (errnoStr errno)]
  ∧ mosq__pstatus strerror errnoStr errno MOSQ_ERR_SUCCESS = .returns [.bool true]
  ∧ ctx_connect strerror errnoStr errno MOSQ_ERR_SUCCESS = .returns [.bool true]
  ∧ ctx_disconnect strerror errnoStr errno MOSQ_ERR_SUCCESS = .returns [.bool true]
  ∧ ctx_will_set strerror errnoStr errno MOSQ_ERR_SUCCESS = .returns [.bool true]
  ∧ mosq_loop_status strerror errnoStr errno MOSQ_ERR_SUCCESS = .returns [.bool true]
  ∧ ctx_connect strerror errnoStr errno MOSQ_ERR_INVAL = .raised (strerror MOSQ_ERR_INVAL)
  ∧ ctx_publish strerror errnoStr errno MOSQ_ERR_INVAL mid = .raised (strerror MOSQ_ERR_INVAL)
  ∧ ctx_publish strerror errnoStr errno MOSQ_ERR_NO_CONN mid =
      .returns [.nil, .num MOSQ_ERR_NO_CONN, .str (strerror MOSQ_ERR_NO_CONN)]
  ∧ ctx_publish strerror errnoStr errno MOSQ_ERR_SUCCESS mid = .returns [.num mid]
  ∧ ctx_subscribe strerror errnoStr errno MOSQ_ERR_SUCCESS mid = .returns [.num mid]
  ∧ ctx_unsubscribe strerror errnoStr errno MOSQ_ERR_SUCCESS mid = .returns [.num mid] :=
  ⟨rfl, rfl, rfl, rfl, rfl, rfl, rfl, rfl, rfl, rfl,
   rfl, rfl, rfl, rfl, rfl, rfl, rfl, rfl, rfl⟩

/-- Claim C2: `new` enforces the id/clean-session invariant as described, but
`reinitialise` reads the client id with `luaL_optstring(L, 1, NULL)` from
stack position 1 — the instance userdata itself, not the id argument — so
every `reinitialise` call raises the "string expected" type error at
position 1 before reaching the id/clean-session check, even when an id is
supplied (the claim says such calls pass the check and proceed). -/
theorem C2_reinitialise_misreads_id :
    mosq_new [] = .proceeds none true
  ∧ mosq_new [.str "client1"] = .proceeds (some "client1") true
  ∧ mosq_new [.str "client1", .bool false] = .proceeds (some "client1") false
  ∧ mosq_new [.nil, .bool false] = .raisedArgIdNilCleanSession 2
  ∧ ctx_reinitialise [.userdata true, .str "client1", .bool true] = .raisedTypeString 1
  ∧ ctx_reinitialise [.userdata true, .str "client1", .bool false] = .raisedTypeString 1
  ∧ ctx_reinitialise [.userdata true] = .raisedTypeString 1 :=
  ⟨rfl, rfl, rfl, rfl, rfl, rfl, rfl⟩

/-- Claim C3: for every event kind, a hook that raises during dispatch is
caught at the `lua_pcall` boundary of the C dispatcher (or by the early
`lua_checkstack` bail-out of the subscribe dispatcher): the dispatcher
returns normally for every hook behaviour, so nothing unwinds into the
codec's I/O loop. -/
theorem C3_hook_error_confined :
    (∀ (hook : Bool → Int → String → Except String Unit) (rc : Int),
       ctx_on_connect hook rc = CbOutcome.returnsNormally)
  ∧ (∀ (hook : Bool → Int → String → Except String Unit) (rc : Int),
       ctx_on_disconnect hook rc = CbOutcome.returnsNormally)
  ∧ (∀ (hook : Int → Except String Unit) (mid : Int),
       ctx_on_publish hook mid = CbOutcome.returnsNormally)
  ∧ (∀ (hook : Int → String → String → Int → Bool → Except String Unit) (msg : MosqMessage),
       ctx_on_message hook msg = CbOutcome.returnsNormally)
  ∧ (∀ (stackOk : Bool) (hook : Int → List Int → Except String Unit) (mid : Int)
       (granted_qos : List Int),
       ctx_on_subscribe stackOk hook mid granted_qos = CbOutcome.returnsNormally)
  ∧ (∀ (hook : Int → Except String Unit) (mid : Int),
       ctx_on_unsubscribe hook mid = CbOutcome.returnsNormally)
  ∧ (∀ (hook : Int → String → Except String Unit) (level : Int) (msg : String),
       ctx_on_log hook level msg = CbOutcome.returnsNormally) := by
  refine ⟨?_, ?_, ?_, ?_, ?_, ?_, ?_⟩ <;> intros <;>
    simp only [ctx_on_connect, ctx_on_disconnect, ctx_on_publish, ctx_on_message,
      ctx_on_subscribe, ctx_on_unsubscribe, ctx_on_log, ite_self]

theorem connack_flag (rc : Int) :
    ((connack rc).1 = true ↔ rc = 0)
    ∧ ((connack rc).2 = "reserved for future use" ↔ rc < 0 ∨ 6 < rc) := by
  by_cases hin : 0 ≤ rc ∧ rc ≤ 6
  · obtain ⟨hlo, hhi⟩ := hin
    interval_cases rc <;> exact ⟨by decide, by decide⟩
  · have hout : rc < 0 ∨ 6 < rc := by omega
    have hc : connack rc = (false, "reserved for future use") := by
      unfold connack
      split_ifs with h0 h1 h2 h3 h4 h5 h6 <;> first | rfl | omega
    rw [hc]
    constructor
    · constructor
      · intro hb; exact absurd hb (by decide)
      · intro h0; exact absurd h0 (by omega)
    · constructor
      · intro _; exact hout
      · intro _; rfl

/-- Claim C4, counterexample: after binding hook 100 and then hook 200 for the
connect kind on a fresh instance with an empty registry, the first hook is
still held by its registry slot — `ctx_callback_set` overwrites the reference
field without `luaL_unref`-ing the previous reference, so the previous hook
is replaced but never released. -/
theorem C4_previous_hook_not_released :
    setTwice CONNECT ctx__on_init [] 100 200 =
      .ok ({ ctx__on_init with on_connect := 1 }, [some 100, some 200])
  ∧ registryGet [some 100, some 200] 0 = some 100
  ∧ registryGet [some 100, some 200] 0 ≠ none := by
  refine ⟨rfl, rfl, ?_⟩
  decide

/-- Claim C4 (amended): at most one hook reference is bound per event kind;
binding a second hook for the same kind makes every subsequent dispatch for
that kind invoke only the second hook (the first is never invoked again),
but the first hook's registry reference is not released — it stays in the
registry at its old slot. -/
theorem C4_second_binding_wins (ct : Int) (c : CbCtx) (reg : Registry) (f1 f2 : Nat)
    (h : ct = CONNECT ∨ ct = DISCONNECT ∨ ct = PUBLISH ∨ ct = MESSAGE ∨
         ct = SUBSCRIBE ∨ ct = UNSUBSCRIBE ∨ ct = LOG) :
    invokedAfterTwo ct c reg f1 f2 = some f2
  ∧ (setTwice ct c reg f1 f2).map Prod.snd = .ok (reg ++ [some f1, some f2])
  ∧ registryGet (reg ++ [some f1, some f2]) (Int.ofNat reg.length) = some f1 := by
  have hreg2 : registryGet (reg ++ [some f1, some f2]) (Int.ofNat (reg.length + 1)) =
      some f2 := by
    simpa using registryGet_append reg [some f1, some f2] 1
  have hreg1 : registryGet (reg ++ [some f1, some f2]) (Int.ofNat reg.length) = some f1 := by
    simpa using registryGet_append reg [some f1, some f2] 0
  rcases h with rfl | rfl | rfl | rfl | rfl | rfl | rfl <;>
    refine ⟨?_, ?_, hreg1⟩ <;>
      simp_all [invokedAfterTwo, setTwice, ctx_callback_set, luaL_ref, dispatchRef,
        CONNECT, DISCONNECT, PUBLISH, MESSAGE, SUBSCRIBE, UNSUBSCRIBE, LOG,
        List.append_assoc, Except.map]

/-- Witness for C4_second_binding_wins: instantiated for the connect kind on a
fresh instance, empty registry, hooks 100 then 200. -/
theorem C4_second_binding_wins_witness :
    (CONNECT = CONNECT ∨ CONNECT = DISCONNECT ∨ CONNECT = PUBLISH ∨ CONNECT = MESSAGE ∨
       CONNECT = SUBSCRIBE ∨ CONNECT = UNSUBSCRIBE ∨ CONNECT = LOG)
  ∧ invokedAfterTwo CONNECT ctx__on_init [] 100 200 = some 200
  ∧ (setTwice CONNECT ctx__on_init [] 100 200).map Prod.snd = .ok [some 100, some 200]
  ∧ registryGet [some 100, some 200] (Int.ofNat 0) = some 100 := by
  have h : CONNECT = CONNECT ∨ CONNECT = DISCONNECT ∨ CONNECT = PUBLISH ∨
      CONNECT = MESSAGE ∨ CONNECT = SUBSCRIBE ∨ CONNECT = UNSUBSCRIBE ∨ CONNECT = LOG :=
    Or.inl rfl
  have hmain := C4_second_binding_wins CONNECT ctx__on_init [] 100 200 h
  exact ⟨h, by simpa using hmain.1, by simpa using hmain.2.1, by simpa using hmain.2.2⟩

/-- Claim C5, counterexample: `loop_start` binds the `ctx->L` back-reference
and returns with it still bound (it is only cleared in `loop_stop`), so the
claim that every loop-driving operation — including `loop_start` — has
cleared the back-reference by the time it returns is false. -/
theorem C5_loop_start_keeps_backref_bound :
    (LoopBinding.ctx_loop_start 7 (⟨none⟩ : LoopBinding.LCtx)).2.L = some 7
  ∧ (LoopBinding.ctx_loop_start 7 (⟨none⟩ : LoopBinding.LCtx)).2.L ≠ none := by
  refine ⟨rfl, ?_⟩
  decide

/-- Claim C5 (amended): the caller-driven loop operations (`loop`,
`loop_forever`, `loop_read`, `loop_write`, `loop_misc`) bind `ctx->L` at
entry and have cleared it by the time they return; `loop_start` instead
leaves it bound for the background thread, and it is `loop_stop` that clears
it. -/
theorem C5_backref_bound_and_cleared (caller : Nat) (c : LoopBinding.LCtx) :
    ((LoopBinding.ctx_loop caller c).1.L = some caller
       ∧ (LoopBinding.ctx_loop caller c).2.L = none)
  ∧ ((LoopBinding.ctx_loop_forever caller c).1.L = some caller
       ∧ (LoopBinding.ctx_loop_forever caller c).2.L = none)
  ∧ ((LoopBinding.ctx_loop_read caller c).1.L = some caller
       ∧ (LoopBinding.ctx_loop_read caller c).2.L = none)
  ∧ ((LoopBinding.ctx_loop_write caller c).1.L = some caller
       ∧ (LoopBinding.ctx_loop_write caller c).2.L = none)
  ∧ ((LoopBinding.ctx_loop_misc caller c).1.L = some caller
       ∧ (LoopBinding.ctx_loop_misc caller c).2.L = none)
  ∧ ((LoopBinding.ctx_loop_start caller c).1.L = some caller
       ∧ (LoopBinding.ctx_loop_start caller c).2.L = some caller)
  ∧ (LoopBinding.ctx_loop_stop c).2.L = none :=
  ⟨⟨rfl, rfl⟩, ⟨rfl, rfl⟩, ⟨rfl, rfl⟩, ⟨rfl, rfl⟩, ⟨rfl, rfl⟩, ⟨rfl, rfl⟩, rfl⟩

/-- Claim C6: the connect hook receives `(success, rc, reason)` where success
is true exactly for rc = 0, the reason strings for rc = 0..6 are the seven
specific descriptions, and every rc outside 0..6 gets the "reserved for
future use" string (with success false). -/
theorem C6_connack_mapping :
    (∀ (hook : Bool → Int → String → Except String Unit) (rc : Int),
       ctx_on_connect_safe hook rc = hook (connack rc).1 rc (connack rc).2)
  ∧ (∀ rc : Int, ((connack rc).1 = true ↔ rc = 0)
       ∧ ((connack rc).2 = "reserved for future use" ↔ rc < 0 ∨ 6 < rc))
  ∧ connack 0 = (true, "connection accepted")
  ∧ connack 1 = (false, "connection refused - incorrect protocol version")
  ∧ connack 2 = (false, "connection refused - invalid client identifier")
  ∧ connack 3 = (false, "connection refused - server unavailable")
  ∧ connack 4 = (false, "connection refused - bad username or password")
  ∧ connack 5 = (false, "connection refused - not authorised")
  ∧ connack 6 = (false, "connection refused - TLS error") :=
  ⟨fun _ _ => rfl, connack_flag, rfl, rfl, rfl, rfl, rfl, rfl, rfl⟩

/-- Claim C7: the disconnect hook receives `(success, rc, reason)`; success
and the "client-initiated disconnect" reason occur exactly for rc = 0, and
every nonzero rc yields success false with the "unexpected disconnect"
reason and the raw code rc passed through. -/
theorem C7_disconnack_mapping :
    (∀ (hook : Bool → Int → String → Except String Unit) (rc : Int),
       ctx_on_disconnect_safe hook rc = hook (disconnack rc).1 rc (disconnack rc).2)
  ∧ (∀ rc : Int, ((disconnack rc).1 = true ↔ rc = 0)
       ∧ ((disconnack rc).2 = "client-initiated disconnect" ↔ rc = 0)
       ∧ ((disconnack rc).2 = "unexpected disconnect" ↔ ¬ rc = 0))
  ∧ disconnack 0 = (true, "client-initiated disconnect") := by
  refine ⟨fun _ _ => rfl, ?_, rfl⟩
  intro rc
  by_cases h : rc = 0
  · subst h
    exact ⟨by decide, by decide, by decide⟩
  · have hd : disconnack rc = (false, "unexpected disconnect") := by
      unfold disconnack; rw [if_neg h]
    rw [hd]
    refine ⟨⟨?_, ?_⟩, ⟨?_, ?_⟩, ⟨?_, ?_⟩⟩
    · intro hb; exact absurd hb (by decide)
    · intro h0; exact absurd h0 h
    · intro hs; exact absurd hs (by decide)
    · intro h0; exact absurd h0 h
    · intro _; exact h
    · intro _; rfl

/-- Claim C8: with a supplied token, "mqttv311" selects V311, "mqttv31"
selects V31, and every unrecognized token silently falls back to V31 and the
call proceeds to `mosquitto_opts_set` (reporting its status as success);
but with the token absent, `luaL_optstring` yields the NULL pointer and the
first `strcmp` dereferences it — undefined behavior, not the documented
fallback. -/
theorem C8_version_token_handling :
    ctx_version_set none = .undefinedBehavior
  ∧ ctx_version_set (some "mqttv311") = .proceeds MQTT_PROTOCOL_V311
  ∧ ctx_version_set (some "mqttv31") = .proceeds MQTT_PROTOCOL_V31
  ∧ ctx_version_set (some "bogus") = .proceeds MQTT_PROTOCOL_V31
  ∧ ctx_version_set (some "") = .proceeds MQTT_PROTOCOL_V31
  ∧ (∀ s : String,
       (ctx_version_set (some s) = .proceeds MQTT_PROTOCOL_V311 ↔ s = "mqttv311")
       ∧ (ctx_version_set (some s) = .proceeds MQTT_PROTOCOL_V31 ↔ ¬ s = "mqttv311")) := by
  refine ⟨rfl, rfl, rfl, rfl, rfl, ?_⟩
  intro s
  by_cases h311 : s = "mqttv311"
  · subst h311
    exact ⟨by decide, by decide⟩
  · by_cases h31 : s = "mqttv31"
    · subst h31
      exact ⟨by decide, by decide⟩
    · have hv : ctx_version_set (some s) = .proceeds MQTT_PROTOCOL_V31 := by
        simp only [ctx_version_set]
        rw [if_neg h31, if_neg h311]
      rw [hv]
      refine ⟨⟨?_, ?_⟩, ⟨?_, ?_⟩⟩
      · intro hp; exact absurd hp (by decide)
      · intro h0; exact absurd h0 h311
      · intro _; exact h311
      · intro _; rfl

/-- Claim C9: `ctx__on_clear`, invoked by `ctx_destroy` after the codec
release, performs its seven `luaL_unref` calls through `ctx->L`, which is
NULL whenever no loop operation is executing; so a first `destroy` on an
instance with any bound hook reference — the ordinary case — dereferences
the NULL state instead of clearing the references and returning true
(conjunct one: the crash happens after exactly one codec release).  The
claimed behaviour is exhibited only where no non-negative reference meets a
NULL `ctx->L`: with no hook ever bound (conjuncts two to four: first destroy
returns true, releases once, invalidates; the second raises from `ctx_check`
with state, registry and release count untouched), or when destroy runs
while `ctx->L` is bound, where the hook slot genuinely empties (conjuncts
five and six). -/
theorem C9_destroy_null_state_unref :
    ctx_destroy (fun _ => "") (fun _ => "") 0
        ⟨true, 0, ⟨0, -1, -1, -1, -1, -1, -1⟩, none⟩ [some 100] =
      .undefinedBehavior 1
  ∧ ctx_destroy (fun _ => "") (fun _ => "") 0 ⟨true, 0, ctx__on_init, none⟩ [] =
      .completed (.returns [.bool true]) ⟨false, 1, ctx__on_init, none⟩ []
  ∧ ctx_destroy (fun _ => "") (fun _ => "") 0 ⟨false, 1, ctx__on_init, none⟩ [] =
      .completed (.raised "bad argument (mosquitto.ctx expected)")
        ⟨false, 1, ctx__on_init, none⟩ []
  ∧ ctx_check ⟨false, 1, ctx__on_init, none⟩ =
      .error "bad argument (mosquitto.ctx expected)"
  ∧ ctx_destroy (fun _ => "") (fun _ => "") 0
        ⟨true, 0, ⟨0, -1, -1, -1, -1, -1, -1⟩, some 7⟩ [some 100] =
      .completed (.returns [.bool true])
        ⟨false, 1, ⟨0, -1, -1, -1, -1, -1, -1⟩, some 7⟩ [none]
  ∧ registryGet [none] 0 = none :=
  ⟨rfl, rfl, rfl, rfl, rfl, rfl⟩

theorem strstrIdx_zero (s needle : List Char) :
    strstrIdx s needle = some 0 ↔ needle.isPrefixOf s = true := by
  cases s with
  | nil =>
      cases needle with
      | nil => simp [strstrIdx, List.isPrefixOf]
      | cons c t => simp [strstrIdx, List.isPrefixOf]
  | cons c t =>
      by_cases h : needle.isPrefixOf (c :: t) = true
      · simp [strstrIdx, h]
      · simp [strstrIdx, h, Option.map_eq_some']

theorem scanD_mem (tbl : List (List Char × Int)) (s : List Char)
    (h : scanD tbl s ≠ -1) : s ∈ tbl.map Prod.fst := by
  induction tbl with
  | nil => exact absurd rfl h
  | cons e rest ih =>
      by_cases he : e.1 = s
      · exact List.mem_cons.mpr (Or.inl he.symm)
      · have h' : scanD rest s ≠ -1 := by
          intro hc
          apply h
          simp only [scanD]
          rw [if_neg he]
          exact hc
        exact List.mem_cons.mpr (Or.inr (ih h'))

/-- Claim C10: a string callback kind is recognized iff it is one of the
seven ON_* names — LOG_* names and every other string raise the
invalid-kind error; however a numeric kind is never accepted, because
`lua_isstring` is also true for numbers, so the number is converted to its
decimal string, fails the "ON_" prefix filter and raises "not a proper
callback type" — including 16, the exported ON_CONNECT code. -/
theorem C10_kind_resolution :
    (∀ s : List Char,
       callback_type_from_string s ≠ -1 ↔
         s ∈ ["ON_CONNECT".toList, "ON_DISCONNECT".toList, "ON_PUBLISH".toList,
              "ON_MESSAGE".toList, "ON_SUBSCRIBE".toList, "ON_UNSUBSCRIBE".toList,
              "ON_LOG".toList])
  ∧ callback_type_from_string "ON_CONNECT".toList = CONNECT
  ∧ callback_type_from_string "LOG_INFO".toList = -1
  ∧ callback_type_from_string "LOG_ALL".toList = -1
  ∧ ctx_callback_set_entry ctx__on_init [] (.str "LOG_INFO") (.func 5) =
      .error (.argerror 2 "not a proper callback type")
  ∧ ctx_callback_set_entry ctx__on_init [] (.num 16) (.func 5) =
      .error (.argerror 2 "not a proper callback type")
  ∧ ctx_callback_set_entry ctx__on_init [] (.str "ON_CONNECT") (.func 5) =
      .ok ({ ctx__on_init with on_connect := 0 }, [some 5]) := by
  refine ⟨?_, by decide, by decide, by decide, rfl, rfl, rfl⟩
  intro s
  constructor
  · intro hne
    by_cases hpf : strstrIdx s "ON_".toList = some 0
    · have hpre : ("ON_".toList).isPrefixOf s = true := (strstrIdx_zero s _).mp hpf
      have hscan : scanD D s ≠ -1 := by
        unfold callback_type_from_string at hne
        rwa [if_neg (not_not_intro hpf)] at hne
      have hmem14 := scanD_mem D s hscan
      simp only [D, List.map_cons, List.map_nil, List.mem_cons, List.not_mem_nil,
        or_false] at hmem14
      rcases hmem14 with rfl | rfl | rfl | rfl | rfl | rfl | rfl | rfl | rfl | rfl |
        rfl | rfl | rfl | rfl
      · decide
      · decide
      · decide
      · decide
      · decide
      · decide
      · decide
      · exact absurd hpre (by decide)
      · exact absurd hpre (by decide)
      · exact absurd hpre (by decide)
      · exact absurd hpre (by decide)
      · exact absurd hpre (by decide)
      · exact absurd hpre (by decide)
      · exact absurd hpre (by decide)
    · exfalso
      apply hne
      unfold callback_type_from_string
      rw [if_pos hpf]
  · intro hmem
    simp only [List.mem_cons, List.not_mem_nil, or_false] at hmem
    rcases hmem with rfl | rfl | rfl | rfl | rfl | rfl | rfl <;> decide
